import Mathlib

/-!
Verification of `src/MonthlyPayCalc.py` (class `LoanCalculator`).

The source computes with Python `Decimal`. We embed decimal values as exact
rationals (`ℚ`): the spec's rounding policy states that unrounded exact
decimal values are used for all intermediate arithmetic, and every place the
source calls `quantize` is modelled by an explicit rounding function below.

* `quantize2HalfUp` models `x.quantize(Decimal('0.01'), rounding=ROUND_HALF_UP)`
  (round half away from zero, to cents).
* `quantize2HalfEven` models `x.quantize(Decimal('0.01'))` with the context's
  default rounding, which is `ROUND_HALF_EVEN` (bankers' rounding, to cents).
-/

/-- Round to 2 decimal places, ties away from zero (Python `ROUND_HALF_UP`). -/
def quantize2HalfUp (x : ℚ) : ℚ :=
  if 0 ≤ x then ((⌊x * 100 + 1/2⌋ : ℤ) : ℚ) / 100
  else -(((⌊-x * 100 + 1/2⌋ : ℤ) : ℚ) / 100)

/-- Round to 2 decimal places, ties to even (Python default `ROUND_HALF_EVEN`). -/
def quantize2HalfEven (x : ℚ) : ℚ :=
  let n : ℤ := ⌊x * 100⌋
  let f : ℚ := x * 100 - (n : ℚ)
  if f < 1/2 then (n : ℚ) / 100
  else if (1:ℚ)/2 < f then ((n + 1 : ℤ) : ℚ) / 100
  else if n % 2 = 0 then (n : ℚ) / 100 else ((n + 1 : ℤ) : ℚ) / 100

/-- The stored state of a `LoanCalculator` instance: the three constructor
arguments plus the two derived fields `__init__` computes and stores. -/
structure LoanCalculator where
  principal : ℚ
  annual_rate : ℚ
  years : ℕ
  monthly_rate : ℚ
  total_payments : ℕ
  deriving Repr, DecidableEq

/-- `LoanCalculator.__init__`: stores the inputs and computes
`monthly_rate = annual_rate / 12` and `total_payments = years * 12`.
The source performs no validation of the inputs. -/
def LoanCalculator.init (principal annual_rate : ℚ) (years : ℕ) : LoanCalculator :=
  { principal := principal
    annual_rate := annual_rate
    years := years
    monthly_rate := annual_rate / 12
    total_payments := years * 12 }

/-- The spec's validity conditions on an instance, together with the
constructor's derived-field relations. -/
def LoanCalculator.Valid (lc : LoanCalculator) : Prop :=
  0 < lc.principal ∧ 0 ≤ lc.annual_rate ∧ 1 ≤ lc.years ∧
    lc.monthly_rate = lc.annual_rate / 12 ∧ lc.total_payments = lc.years * 12

instance (lc : LoanCalculator) : Decidable lc.Valid := by
  unfold LoanCalculator.Valid; infer_instance

/-- `calculate_monthly_payment`: zero-rate branch returns
`principal / total_payments` (no quantize in the source); otherwise the
amortization formula, quantized half-up to cents. -/
def calculate_monthly_payment (lc : LoanCalculator) : ℚ :=
  if lc.annual_rate = 0 then lc.principal / (lc.total_payments : ℚ)
  else
    let r := lc.monthly_rate
    let factor := (1 + r) ^ lc.total_payments
    quantize2HalfUp (lc.principal * (r * factor) / (factor - 1))

/-- One row of the amortization schedule, with the source's dict keys. -/
structure PaymentRecord where
  payment : ℕ
  monthly_payment : ℚ
  interest : ℚ
  principal : ℚ
  balance : ℚ
  deriving Repr, DecidableEq

/-- Loop body of `generate_amortization_schedule`: folds the unrounded
running balance over the list of period numbers. -/
def scheduleAux (mp r : ℚ) : ℚ → List ℕ → List PaymentRecord
  | _, [] => []
  | balance, k :: ks =>
    let interest := quantize2HalfUp (balance * r)
    let princ := mp - interest
    let balance2 := balance - princ
    { payment := k
      monthly_payment := mp
      interest := interest
      principal := princ
      balance := quantize2HalfUp balance2 } :: scheduleAux mp r balance2 ks

/-- `generate_amortization_schedule`: iterates over
`range(1, min(13, total_payments + 1))` starting from `balance = principal`. -/
def generate_amortization_schedule (lc : LoanCalculator) : List PaymentRecord :=
  scheduleAux (calculate_monthly_payment lc) lc.monthly_rate lc.principal
    (List.range' 1 (min 13 (lc.total_payments + 1) - 1))

/-- The unrounded running balance after `k` periods of the schedule loop
(`runningBalance lc 0 = principal`). -/
def runningBalance (lc : LoanCalculator) : ℕ → ℚ
  | 0 => lc.principal
  | k + 1 =>
    let b := runningBalance lc k
    b - (calculate_monthly_payment lc - quantize2HalfUp (b * lc.monthly_rate))

/-- `total_interest_paid`: `monthly_payment * total_payments - principal`,
quantized to cents with the context default rounding (`ROUND_HALF_EVEN`),
since the source's `quantize` names no rounding mode. -/
def total_interest_paid (lc : LoanCalculator) : ℚ :=
  let mp := calculate_monthly_payment lc
  let total_paid := mp * (lc.total_payments : ℚ)
  quantize2HalfEven (total_paid - lc.principal)

/-- The three public methods of `LoanCalculator`. -/
inductive MethodCall where
  | calcPayment
  | genSchedule
  | totalInterest

/-- What a method call returns to the caller. -/
inductive MethodResult where
  | payment (value : ℚ)
  | schedule (rows : List PaymentRecord)
  | interest (value : ℚ)

/-- Executes one method call on an instance, returning the result together
with the instance's state after the call.  Each of the three source method
bodies only reads `self`'s attributes and contains no assignment to any of
them, so the state handed back is the state received. -/
def runMethod (lc : LoanCalculator) : MethodCall → MethodResult × LoanCalculator
  | .calcPayment => (.payment (calculate_monthly_payment lc), lc)
  | .genSchedule => (.schedule (generate_amortization_schedule lc), lc)
  | .totalInterest => (.interest (total_interest_paid lc), lc)

/-- The instance's state after an arbitrary sequence of method calls. -/
def runCalls (lc : LoanCalculator) (calls : List MethodCall) : LoanCalculator :=
  calls.foldl (fun s c => (runMethod s c).2) lc

/-! ### Helper lemmas -/

theorem quantize2HalfUp_zero : quantize2HalfUp 0 = 0 := by
  norm_num [quantize2HalfUp]

theorem quantize2HalfUp_mono {x y : ℚ} (h : x ≤ y) :
    quantize2HalfUp x ≤ quantize2HalfUp y := by
  unfold quantize2HalfUp
  rcases le_or_lt 0 x with hx | hx
  · rw [if_pos hx, if_pos (le_trans hx h)]
    have hfl : (⌊x * 100 + 1/2⌋ : ℤ) ≤ ⌊y * 100 + 1/2⌋ :=
      Int.floor_le_floor (by linarith)
    exact (div_le_div_iff_of_pos_right (by norm_num)).mpr (Int.cast_le.mpr hfl)
  · rw [if_neg (not_le.mpr hx)]
    rcases le_or_lt 0 y with hy | hy
    · rw [if_pos hy]
      have h1 : (0:ℚ) ≤ ((⌊y * 100 + 1/2⌋ : ℤ) : ℚ) / 100 := by
        apply div_nonneg _ (by norm_num)
        exact_mod_cast Int.le_floor.mpr (by push_cast; linarith)
      have h2 : (0:ℚ) ≤ ((⌊-x * 100 + 1/2⌋ : ℤ) : ℚ) / 100 := by
        apply div_nonneg _ (by norm_num)
        exact_mod_cast Int.le_floor.mpr (by push_cast; linarith)
      linarith
    · rw [if_neg (not_le.mpr hy)]
      have hfl : (⌊-y * 100 + 1/2⌋ : ℤ) ≤ ⌊-x * 100 + 1/2⌋ :=
        Int.floor_le_floor (by linarith)
      have := (div_le_div_iff_of_pos_right (show (0:ℚ) < 100 by norm_num)).mpr (Int.cast_le.mpr hfl)
      linarith

/-- The quantized payment is at least the quantized first-period interest:
the exact formula value exceeds `principal * monthly_rate`, and quantization
is monotone. -/
theorem payment_ge_first_interest (lc : LoanCalculator) (hv : lc.Valid) :
    quantize2HalfUp (lc.principal * lc.monthly_rate) ≤ calculate_monthly_payment lc := by
  obtain ⟨hp, ha, hy, hmr, htp⟩ := hv
  unfold calculate_monthly_payment
  by_cases h0 : lc.annual_rate = 0
  · rw [if_pos h0]
    have hr : lc.monthly_rate = 0 := by rw [hmr, h0]; norm_num
    rw [hr, mul_zero, quantize2HalfUp_zero]
    have htp' : 0 < lc.total_payments := by omega
    have : (0:ℚ) < (lc.total_payments : ℚ) := by exact_mod_cast htp'
    exact le_of_lt (div_pos hp this)
  · rw [if_neg h0]
    have ha' : 0 < lc.annual_rate := lt_of_le_of_ne ha (Ne.symm h0)
    have hr : 0 < lc.monthly_rate := by rw [hmr]; positivity
    have hn : lc.total_payments ≠ 0 := by omega
    have hf1 : 1 < (1 + lc.monthly_rate) ^ lc.total_payments :=
      one_lt_pow₀ (by linarith) hn
    apply quantize2HalfUp_mono
    have h2 : lc.principal * (lc.monthly_rate * (1 + lc.monthly_rate) ^ lc.total_payments) /
        ((1 + lc.monthly_rate) ^ lc.total_payments - 1) =
        (lc.principal * lc.monthly_rate) *
          ((1 + lc.monthly_rate) ^ lc.total_payments /
            ((1 + lc.monthly_rate) ^ lc.total_payments - 1)) := by
      ring
    rw [h2]
    have h3 : 1 ≤ (1 + lc.monthly_rate) ^ lc.total_payments /
        ((1 + lc.monthly_rate) ^ lc.total_payments - 1) :=
      (one_le_div (by linarith)).mpr (by linarith)
    exact le_mul_of_one_le_right (by positivity) h3

theorem runningBalance_succ (lc : LoanCalculator) (k : ℕ) :
    runningBalance lc (k + 1) =
      runningBalance lc k -
        (calculate_monthly_payment lc -
          quantize2HalfUp (runningBalance lc k * lc.monthly_rate)) := rfl

/-- Under valid parameters the unrounded running balance never increases and
stays at or below the principal. -/
theorem runningBalance_le (lc : LoanCalculator) (hv : lc.Valid) (k : ℕ) :
    runningBalance lc (k + 1) ≤ runningBalance lc k ∧
      runningBalance lc k ≤ lc.principal := by
  have hr : 0 ≤ lc.monthly_rate := by
    rw [hv.2.2.2.1]; have := hv.2.1; positivity
  have key := payment_ge_first_interest lc hv
  induction k with
  | zero =>
    refine ⟨?_, le_refl _⟩
    rw [runningBalance_succ]
    have h0 : runningBalance lc 0 = lc.principal := rfl
    rw [h0]
    linarith
  | succ k ih =>
    have hbk : runningBalance lc (k + 1) ≤ lc.principal := le_trans ih.1 ih.2
    have hmono : quantize2HalfUp (runningBalance lc (k + 1) * lc.monthly_rate) ≤
        quantize2HalfUp (lc.principal * lc.monthly_rate) :=
      quantize2HalfUp_mono (mul_le_mul_of_nonneg_right hbk hr)
    refine ⟨?_, hbk⟩
    rw [runningBalance_succ]
    linarith

theorem scheduleAux_length (mp r : ℚ) :
    ∀ (l : List ℕ) (b : ℚ), (scheduleAux mp r b l).length = l.length := by
  intro l
  induction l with
  | nil => intro b; rfl
  | cons k ks ih => intro b; simp [scheduleAux, ih]

theorem scheduleAux_mem_split (mp r : ℚ) :
    ∀ (l : List ℕ) (b : ℚ) (w : PaymentRecord), w ∈ scheduleAux mp r b l →
      w.interest + w.principal = w.monthly_payment := by
  intro l
  induction l with
  | nil => intro b w h; simp [scheduleAux] at h
  | cons k ks ih =>
    intro b w h
    simp only [scheduleAux, List.mem_cons] at h
    rcases h with h | h
    · subst h; simp
    · exact ih _ w h

theorem scheduleAux_getElem (mp r : ℚ) :
    ∀ (m : ℕ) (bal : ℕ → ℚ)
      (hbal : ∀ k, bal (k + 1) = bal k - (mp - quantize2HalfUp (bal k * r)))
      (start i : ℕ), i < m →
      (scheduleAux mp r (bal 0) (List.range' start m))[i]? =
        some { payment := start + i
               monthly_payment := mp
               interest := quantize2HalfUp (bal i * r)
               principal := mp - quantize2HalfUp (bal i * r)
               balance := quantize2HalfUp (bal (i + 1)) } := by
  intro m
  induction m with
  | zero => intro bal hbal start i hi; omega
  | succ m ih =>
    intro bal hbal start i hi
    rw [List.range'_succ]
    cases i with
    | zero =>
      simp only [scheduleAux, List.getElem?_cons_zero, Option.some.injEq]
      have hb : bal 0 - (mp - quantize2HalfUp (bal 0 * r)) = bal 1 := (hbal 0).symm
      rw [hb]
      norm_num
    | succ i =>
      simp only [scheduleAux, List.getElem?_cons_succ]
      have hb : bal 0 - (mp - quantize2HalfUp (bal 0 * r)) = bal 1 := (hbal 0).symm
      rw [hb]
      have hrec := ih (fun k => bal (k + 1)) (fun k => hbal (k + 1)) (start + 1) i
        (by omega)
      have harith : start + 1 + i = start + (i + 1) := by omega
      rw [harith] at hrec
      exact hrec

theorem schedule_getElem (lc : LoanCalculator) (i : ℕ)
    (hi : i < min 13 (lc.total_payments + 1) - 1) :
    (generate_amortization_schedule lc)[i]? =
      some { payment := 1 + i
             monthly_payment := calculate_monthly_payment lc
             interest := quantize2HalfUp (runningBalance lc i * lc.monthly_rate)
             principal := calculate_monthly_payment lc -
               quantize2HalfUp (runningBalance lc i * lc.monthly_rate)
             balance := quantize2HalfUp (runningBalance lc (i + 1)) } :=
  scheduleAux_getElem (calculate_monthly_payment lc) lc.monthly_rate
    (min 13 (lc.total_payments + 1) - 1) (runningBalance lc)
    (runningBalance_succ lc) 1 i hi

theorem schedule_length (lc : LoanCalculator) :
    (generate_amortization_schedule lc).length = min 12 lc.total_payments := by
  show (scheduleAux _ _ _ _).length = _
  rw [scheduleAux_length, List.length_range']
  omega

theorem runMethod_state (lc : LoanCalculator) (c : MethodCall) :
    (runMethod lc c).2 = lc := by
  cases c <;> rfl

theorem runCalls_eq (calls : List MethodCall) : ∀ lc, runCalls lc calls = lc := by
  induction calls with
  | nil => intro lc; rfl
  | cons c cs ih =>
    intro lc
    show runCalls (runMethod lc c).2 cs = lc
    rw [runMethod_state]
    exact ih lc

/-! ### The claims -/

/-- C1: for every instance constructed with `principal > 0`, `annualRate > 0`
and `termYears ≥ 1`, `calculate_monthly_payment` returns
`principal * (r * factor) / (factor - 1)` with `r = annualRate / 12` and
`factor = (1 + r) ^ (termYears * 12)`, rounded to 2 decimal places half-up. -/
theorem C1_monthly_payment_formula (p a : ℚ) (y : ℕ)
    (hp : 0 < p) (ha : 0 < a) (hy : 1 ≤ y) :
    calculate_monthly_payment (LoanCalculator.init p a y) =
      quantize2HalfUp (p * ((a / 12) * (1 + a / 12) ^ (y * 12)) /
        ((1 + a / 12) ^ (y * 12) - 1)) := by
  have hne : (LoanCalculator.init p a y).annual_rate ≠ 0 := ne_of_gt ha
  unfold calculate_monthly_payment
  rw [if_neg hne]
  rfl

/-- C1 witness: the formula theorem applied at scenario 3
(principal 25000, rate 0.0675, 5 years). -/
theorem C1_monthly_payment_formula_witness :
    ((0:ℚ) < 25000 ∧ (0:ℚ) < 675/10000 ∧ 1 ≤ 5) ∧
      calculate_monthly_payment (LoanCalculator.init 25000 (675/10000) 5) =
        quantize2HalfUp (25000 * ((675/10000 / 12) * (1 + 675/10000 / 12) ^ (5 * 12)) /
          ((1 + 675/10000 / 12) ^ (5 * 12) - 1)) :=
  ⟨by norm_num,
    C1_monthly_payment_formula 25000 (675/10000) 5 (by norm_num) (by norm_num) (by norm_num)⟩

/-- C2 counterexample: at principal 50000, rate 0, 10 years, the zero-rate
branch returns `50000 / 120 = 1250/3`, not the half-up-rounded `416.67`. -/
theorem C2_counterexample :
    calculate_monthly_payment (LoanCalculator.init 50000 0 10) ≠
      quantize2HalfUp ((50000 : ℚ) / 120) := by
  norm_num [calculate_monthly_payment, LoanCalculator.init, quantize2HalfUp]

/-- C2 amended: for `annualRate = 0` (principal > 0, termYears ≥ 1),
`calculate_monthly_payment` returns `principal / totalPayments` exactly,
WITHOUT rounding to 2 decimal places (the source's zero-rate branch
performs no quantize). -/
theorem C2_zero_rate_payment_unrounded (p : ℚ) (y : ℕ)
    (hp : 0 < p) (hy : 1 ≤ y) :
    calculate_monthly_payment (LoanCalculator.init p 0 y) =
      p / (((y * 12 : ℕ)) : ℚ) := by
  unfold calculate_monthly_payment
  rw [if_pos (show (LoanCalculator.init p 0 y).annual_rate = 0 from rfl)]
  rfl

/-- C2 witness: at principal 50000, rate 0, 10 years the returned payment is
the unrounded quotient `50000 / 120`. -/
theorem C2_zero_rate_payment_unrounded_witness :
    ((0:ℚ) < 50000 ∧ (1:ℕ) ≤ 10) ∧
      calculate_monthly_payment (LoanCalculator.init 50000 0 10) =
        (50000 : ℚ) / (((10 * 12 : ℕ)) : ℚ) :=
  ⟨by norm_num, C2_zero_rate_payment_unrounded 50000 10 (by norm_num) (by norm_num)⟩

/-- C3 counterexample: constructing with `principal = 0` (a forbidden input
per the claim) does not fail: it returns an ordinary instance holding the
invalid parameters, because `__init__` contains no validation. -/
theorem C3_counterexample :
    LoanCalculator.init 0 (5/100) 10 =
      { principal := 0, annual_rate := 5/100, years := 10,
        monthly_rate := 5/1200, total_payments := 120 } := by
  norm_num [LoanCalculator.init, LoanCalculator.mk.injEq]

/-- C3 amended: construction never raises and performs no parameter
validation: for all inputs (including `principal ≤ 0`, negative rates and
`termYears = 0`) it returns an instance storing the inputs and the derived
fields. -/
theorem C3_construction_never_fails (p a : ℚ) (y : ℕ) :
    (LoanCalculator.init p a y).principal = p ∧
    (LoanCalculator.init p a y).annual_rate = a ∧
    (LoanCalculator.init p a y).years = y ∧
    (LoanCalculator.init p a y).monthly_rate = a / 12 ∧
    (LoanCalculator.init p a y).total_payments = y * 12 :=
  ⟨rfl, rfl, rfl, rfl, rfl⟩

/-- C9: scenario 1 — principal 250000, rate 0.045, 30 years gives a monthly
payment of exactly 1266.71. -/
theorem C9_scenario1_payment :
    calculate_monthly_payment (LoanCalculator.init 250000 (45/1000) 30) =
      126671/100 := by
  norm_num [calculate_monthly_payment, LoanCalculator.init, quantize2HalfUp]

/-- C10: no method call sequence changes any stored field of the instance:
after any sequence of the three public methods, all five fields equal the
values fixed at construction. -/
theorem C10_methods_do_not_mutate (lc : LoanCalculator) (calls : List MethodCall) :
    (runCalls lc calls).principal = lc.principal ∧
    (runCalls lc calls).annual_rate = lc.annual_rate ∧
    (runCalls lc calls).years = lc.years ∧
    (runCalls lc calls).monthly_rate = lc.monthly_rate ∧
    (runCalls lc calls).total_payments = lc.total_payments := by
  rw [runCalls_eq]
  exact ⟨rfl, rfl, rfl, rfl, rfl⟩

/-- C5 counterexample: at principal 10000.015 (= 2000003/200), rate 0.05,
1 year, the code's `quantize(Decimal('0.01'))` rounds the half-cent tie to
even (272.94), while round-half-up would give 272.95. -/
theorem C5_counterexample :
    total_interest_paid (LoanCalculator.init (2000003/200) (5/100) 1) ≠
      quantize2HalfUp (calculate_monthly_payment (LoanCalculator.init (2000003/200) (5/100) 1) *
        (((LoanCalculator.init (2000003/200) (5/100) 1).total_payments : ℕ) : ℚ) -
        2000003/200) := by
  norm_num [total_interest_paid, calculate_monthly_payment, LoanCalculator.init,
    quantize2HalfUp, quantize2HalfEven]

/-- C5 amended: `total_interest_paid` returns
`computeMonthlyPayment() * totalPayments - principal` rounded to 2 decimal
places with ROUND_HALF_EVEN (the context default used by the source's bare
`quantize`), not round-half-up. -/
theorem C5_total_interest_half_even (p a : ℚ) (y : ℕ)
    (hp : 0 < p) (ha : 0 ≤ a) (hy : 1 ≤ y) :
    total_interest_paid (LoanCalculator.init p a y) =
      quantize2HalfEven (calculate_monthly_payment (LoanCalculator.init p a y) *
        (((y * 12 : ℕ)) : ℚ) - p) := rfl

/-- C5 witness: the amended statement applied at scenario 2
(principal 50000, rate 0, 10 years). -/
theorem C5_total_interest_half_even_witness :
    ((0:ℚ) < 50000 ∧ (0:ℚ) ≤ 0 ∧ (1:ℕ) ≤ 10) ∧
      total_interest_paid (LoanCalculator.init 50000 0 10) =
        quantize2HalfEven (calculate_monthly_payment (LoanCalculator.init 50000 0 10) *
          (((10 * 12 : ℕ)) : ℚ) - 50000) :=
  ⟨by norm_num,
    C5_total_interest_half_even 50000 0 10 (by norm_num) (by norm_num) (by norm_num)⟩

/-- A concrete valid instance used by the witnesses: a 1-year interest-free
loan of 1200, whose schedule covers the full term in 12 periods. -/
def exampleLoan : LoanCalculator := LoanCalculator.init 1200 0 1

theorem exampleLoan_valid : exampleLoan.Valid := by
  norm_num [LoanCalculator.Valid, exampleLoan, LoanCalculator.init]

theorem exampleLoan_schedule :
    generate_amortization_schedule exampleLoan =
      [⟨1, 100, 0, 100, 1100⟩, ⟨2, 100, 0, 100, 1000⟩, ⟨3, 100, 0, 100, 900⟩,
       ⟨4, 100, 0, 100, 800⟩, ⟨5, 100, 0, 100, 700⟩, ⟨6, 100, 0, 100, 600⟩,
       ⟨7, 100, 0, 100, 500⟩, ⟨8, 100, 0, 100, 400⟩, ⟨9, 100, 0, 100, 300⟩,
       ⟨10, 100, 0, 100, 200⟩, ⟨11, 100, 0, 100, 100⟩, ⟨12, 100, 0, 100, 0⟩] := by
  have h1 : List.range' 1 (min 13 (exampleLoan.total_payments + 1) - 1) =
      [1,2,3,4,5,6,7,8,9,10,11,12] := rfl
  norm_num [generate_amortization_schedule, scheduleAux, exampleLoan,
    LoanCalculator.init, calculate_monthly_payment, quantize2HalfUp, h1]

/-- C4: for every valid instance, every emitted record satisfies
`interest + principal = monthly_payment` exactly: the principal portion is
defined as the exact difference `monthly_payment - interest`. -/
theorem C4_interest_plus_principal (lc : LoanCalculator) (hv : lc.Valid)
    (w : PaymentRecord) (hw : w ∈ generate_amortization_schedule lc) :
    w.interest + w.principal = w.monthly_payment :=
  scheduleAux_mem_split (calculate_monthly_payment lc) lc.monthly_rate
    (List.range' 1 (min 13 (lc.total_payments + 1) - 1)) lc.principal w hw

/-- C4 witness: the invariant checked on the first record of the example
loan's schedule. -/
theorem C4_interest_plus_principal_witness :
    (exampleLoan.Valid ∧
      (⟨1, 100, 0, 100, 1100⟩ : PaymentRecord) ∈
        generate_amortization_schedule exampleLoan) ∧
      (⟨1, 100, 0, 100, 1100⟩ : PaymentRecord).interest +
          (⟨1, 100, 0, 100, 1100⟩ : PaymentRecord).principal =
        (⟨1, 100, 0, 100, 1100⟩ : PaymentRecord).monthly_payment :=
  have hm : (⟨1, 100, 0, 100, 1100⟩ : PaymentRecord) ∈
      generate_amortization_schedule exampleLoan := by
    rw [exampleLoan_schedule]
    exact List.mem_cons_self _ _
  ⟨⟨exampleLoan_valid, hm⟩,
    C4_interest_plus_principal exampleLoan exampleLoan_valid _ hm⟩

/-- C6: for every period index `k ≥ 1` (0-based; period `k + 1 ≥ 2`), the
emitted record's interest is `round2(B * monthly_rate)` where `B` is the
UNROUNDED running balance after the previous period, and the emitted balance
is the rounded `round2` of the unrounded balance after this period: the
rounded display balance is never fed back into the recurrence. -/
theorem C6_unrounded_running_balance (lc : LoanCalculator) (k : ℕ) (hk : 1 ≤ k)
    (w : PaymentRecord)
    (hw : (generate_amortization_schedule lc)[k]? = some w) :
    w.interest = quantize2HalfUp (runningBalance lc k * lc.monthly_rate) ∧
      w.balance = quantize2HalfUp (runningBalance lc (k + 1)) := by
  have hlen : k < (generate_amortization_schedule lc).length :=
    (List.getElem?_eq_some.mp hw).1
  rw [schedule_length] at hlen
  have hk2 : k < min 13 (lc.total_payments + 1) - 1 := by omega
  rw [schedule_getElem lc k hk2] at hw
  injection hw with hw
  subst hw
  exact ⟨rfl, rfl⟩

/-- C6 witness: the second record (period 2) of the example loan. -/
theorem C6_unrounded_running_balance_witness :
    ((1:ℕ) ≤ 1 ∧
      (generate_amortization_schedule exampleLoan)[1]? =
        some (⟨2, 100, 0, 100, 1000⟩ : PaymentRecord)) ∧
      ((⟨2, 100, 0, 100, 1000⟩ : PaymentRecord).interest =
          quantize2HalfUp (runningBalance exampleLoan 1 * exampleLoan.monthly_rate) ∧
        (⟨2, 100, 0, 100, 1000⟩ : PaymentRecord).balance =
          quantize2HalfUp (runningBalance exampleLoan 2)) :=
  have hw : (generate_amortization_schedule exampleLoan)[1]? =
      some (⟨2, 100, 0, 100, 1000⟩ : PaymentRecord) := by
    rw [exampleLoan_schedule]; rfl
  ⟨⟨le_refl 1, hw⟩,
    C6_unrounded_running_balance exampleLoan 1 (le_refl 1) _ hw⟩

/-- C7: the schedule has exactly `min 12 totalPayments` records, and the
record at 0-based position `i` carries period number `i + 1`, so the
periods are `1..min(12, totalPayments)` in increasing order with no
padding. -/
theorem C7_schedule_shape (lc : LoanCalculator) (hv : lc.Valid) :
    (generate_amortization_schedule lc).length = min 12 lc.total_payments ∧
      ∀ i w, (generate_amortization_schedule lc)[i]? = some w →
        w.payment = i + 1 := by
  refine ⟨schedule_length lc, ?_⟩
  intro i w hw
  have hlen : i < (generate_amortization_schedule lc).length :=
    (List.getElem?_eq_some.mp hw).1
  rw [schedule_length] at hlen
  have hi : i < min 13 (lc.total_payments + 1) - 1 := by omega
  rw [schedule_getElem lc i hi] at hw
  injection hw with hw
  subst hw
  exact Nat.add_comm 1 i

/-- C7 witness: the example loan's schedule has `min 12 12 = 12` records. -/
theorem C7_schedule_shape_witness :
    exampleLoan.Valid ∧
      (generate_amortization_schedule exampleLoan).length =
        min 12 exampleLoan.total_payments :=
  ⟨exampleLoan_valid, (C7_schedule_shape exampleLoan exampleLoan_valid).1⟩

/-- C8: for every valid instance, consecutive emitted balances are
non-increasing. -/
theorem C8_balances_nonincreasing (lc : LoanCalculator) (hv : lc.Valid) (i : ℕ)
    (w1 w2 : PaymentRecord)
    (h1 : (generate_amortization_schedule lc)[i]? = some w1)
    (h2 : (generate_amortization_schedule lc)[i + 1]? = some w2) :
    w2.balance ≤ w1.balance := by
  have hlen2 : i + 1 < (generate_amortization_schedule lc).length :=
    (List.getElem?_eq_some.mp h2).1
  rw [schedule_length] at hlen2
  have hi2 : i + 1 < min 13 (lc.total_payments + 1) - 1 := by omega
  have hi1 : i < min 13 (lc.total_payments + 1) - 1 := by omega
  rw [schedule_getElem lc i hi1] at h1
  rw [schedule_getElem lc (i + 1) hi2] at h2
  injection h1 with h1
  injection h2 with h2
  subst h1
  subst h2
  exact quantize2HalfUp_mono (runningBalance_le lc hv (i + 1)).1

/-- C8 witness: on the example loan, the second balance (1000) is at most
the first (1100). -/
theorem C8_balances_nonincreasing_witness :
    (exampleLoan.Valid ∧
      (generate_amortization_schedule exampleLoan)[0]? =
        some (⟨1, 100, 0, 100, 1100⟩ : PaymentRecord) ∧
      (generate_amortization_schedule exampleLoan)[0 + 1]? =
        some (⟨2, 100, 0, 100, 1000⟩ : PaymentRecord)) ∧
      (⟨2, 100, 0, 100, 1000⟩ : PaymentRecord).balance ≤
        (⟨1, 100, 0, 100, 1100⟩ : PaymentRecord).balance :=
  have h1 : (generate_amortization_schedule exampleLoan)[0]? =
      some (⟨1, 100, 0, 100, 1100⟩ : PaymentRecord) := by
    rw [exampleLoan_schedule]; rfl
  have h2 : (generate_amortization_schedule exampleLoan)[0 + 1]? =
      some (⟨2, 100, 0, 100, 1000⟩ : PaymentRecord) := by
    rw [exampleLoan_schedule]; rfl
  ⟨⟨exampleLoan_valid, h1, h2⟩,
    C8_balances_nonincreasing exampleLoan exampleLoan_valid 0 _ _ h1 h2⟩
